import Mathlib

/-!
Verification development for the IC package-tracking ledger
(repository lapd87/IC-tracker, src/index.ts).

The TypeScript canister is embedded shallowly:

- the two StableBTreeMap stores become association lists inside an
  explicit LedgerState record that every operation threads;
- Result from azle becomes Except String;
- nat64 timestamps from ic.time() become Nat arguments (now), supplied
  by the caller of each operation that reads the clock;
- uuidv4() becomes an explicit freshUuid argument; the uuid library
  guarantee that generated ids pass validation is a hypothesis where a
  theorem needs it;
- validate from the uuid npm package is reimplemented as isValidUUID,
  following its regex (nil UUID, or 8-4-4-4-12 hex with version 1-5 and
  variant 8, 9, a or b, case-insensitive).

Status values are the source strings: "processing", "in transit"
(with a space), "delivered".
-/

deriving instance DecidableEq for Except

/-- A package holder record: uuid and display name (type PackageHolder). -/
structure PackageHolder where
  uuid : String
  name : String
deriving DecidableEq

/-- A delivery-history entry (type PackageHolderWithTimestamp). -/
structure PackageHolderWithTimestamp where
  packageHolder : PackageHolder
  timestamp : Nat
deriving DecidableEq

/-- A package record (type Package). -/
structure Package where
  id : String
  status : String
  sender : PackageHolder
  recipient : PackageHolder
  currentPackageHolder : PackageHolder
  deliveryHistory : List PackageHolderWithTimestamp
  createdAt : Nat
deriving DecidableEq

/-- The two StableBTreeMap stores (packageStorage, packageHolderStorage),
modelled as association lists keyed by string. -/
structure LedgerState where
  packageStorage : List (String × Package)
  packageHolderStorage : List (String × PackageHolder)
deriving DecidableEq

/-- StableBTreeMap.get: first binding for the key, if any. -/
def mapGet {α : Type} (m : List (String × α)) (k : String) : Option α :=
  match m with
  | [] => none
  | (k1, v) :: rest => if k1 = k then some v else mapGet rest k

/-- StableBTreeMap.insert: replace the binding if the key is present,
otherwise append a new binding. -/
def mapInsert {α : Type} (m : List (String × α)) (k : String) (v : α) :
    List (String × α) :=
  match m with
  | [] => [(k, v)]
  | (k1, v1) :: rest =>
      if k1 = k then (k, v) :: rest else (k1, v1) :: mapInsert rest k v

/-- StableBTreeMap.values: all stored values. -/
def mapValues {α : Type} (m : List (String × α)) : List α := m.map Prod.snd

/-- Hex digit test for the UUID regex character class, case-insensitive. -/
def isHexDigit (c : Char) : Bool :=
  (c ≥ '0' && c ≤ '9') || (c ≥ 'a' && c ≤ 'f') || (c ≥ 'A' && c ≤ 'F')

/-- validate from the uuid npm package: accepts the nil UUID or a
36-character 8-4-4-4-12 string of hex digits with dashes at positions
8, 13, 18 and 23, version digit 1-5 at position 14 and variant
character 8, 9, a or b (case-insensitive) at position 19. -/
def isValidUUID (s : String) : Bool :=
  (s == "00000000-0000-0000-0000-000000000000") ||
  (s.length == 36 &&
    (List.range 36).all (fun i =>
      let c := s.data.getD i ' '
      if i == 8 || i == 13 || i == 18 || i == 23 then c == '-'
      else if i == 14 then c ≥ '1' && c ≤ '5'
      else if i == 19 then
        c == '8' || c == '9' || c == 'a' || c == 'b' || c == 'A' || c == 'B'
      else isHexDigit c))

/-- createPackageHolder(name): reject a falsy (empty) name, reject a
duplicate name, otherwise store a fresh holder under a fresh uuid.
Returns the result together with the successor state. -/
def createPackageHolder (s : LedgerState) (freshUuid name : String) :
    Except String PackageHolder × LedgerState :=
  if name = "" then (.error "Name is required.", s)
  else if (mapValues s.packageHolderStorage).any (fun h => h.name == name) then
    (.error "A PackageHolder with the same name already exists.", s)
  else
    (.ok ⟨freshUuid, name⟩,
     { s with packageHolderStorage :=
         mapInsert s.packageHolderStorage freshUuid ⟨freshUuid, name⟩ })

/-- getPackageHolderById(uuid): validate the uuid syntax, then look the
holder up. Read-only. -/
def getPackageHolderById (s : LedgerState) (uuid : String) :
    Except String PackageHolder :=
  if isValidUUID uuid then
    match mapGet s.packageHolderStorage uuid with
    | some h => .ok h
    | none => .error "Package holder not found."
  else .error "Invalid package holder UUID."

/-- getAllPackageHolders(): all registered holders. Read-only. -/
def getAllPackageHolders (s : LedgerState) : Except String (List PackageHolder) :=
  .ok (mapValues s.packageHolderStorage)

/-- createPackage(senderId, recipientId, firstDeliveryPersonId): require
all three ids non-empty and syntactically valid, resolve each through the
holder registry (sender, then recipient, then first delivery person, each
failure named with its id), then build the new package with one captured
timestamp (currentTimestamp = ic.time()), store it under a fresh package
id and return it. The embedded holder objects are built literally with
the input ids and the fixed names used in the source ("sender",
"recipient", "first delivery person"). -/
def createPackage (s : LedgerState) (freshUuid : String) (now : Nat)
    (senderId recipientId firstDeliveryPersonId : String) :
    Except String Package × LedgerState :=
  if senderId = "" ∨ recipientId = "" ∨ firstDeliveryPersonId = "" then
    (.error "Sender, recipient, and first delivery person ids are required.", s)
  else if ¬ (isValidUUID senderId && isValidUUID recipientId &&
      isValidUUID firstDeliveryPersonId) then
    (.error "Invalid sender, recipient, or first delivery person ID.", s)
  else
    match getPackageHolderById s senderId with
    | .error _ =>
        (.error ("Could not update package with the holder id=" ++ senderId ++
          ". Package holder not found!"), s)
    | .ok _ =>
      match getPackageHolderById s recipientId with
      | .error _ =>
          (.error ("Could not update package with the holder id=" ++ recipientId ++
            ". Package holder not found!"), s)
      | .ok _ =>
        match getPackageHolderById s firstDeliveryPersonId with
        | .error _ =>
            (.error ("Could not update package with the holder id=" ++
              firstDeliveryPersonId ++ ". Package holder not found!"), s)
        | .ok _ =>
            let newPackage : Package :=
              { id := freshUuid
                status := "processing"
                sender := ⟨senderId, "sender"⟩
                recipient := ⟨recipientId, "recipient"⟩
                currentPackageHolder := ⟨firstDeliveryPersonId, "first delivery person"⟩
                deliveryHistory :=
                  [⟨⟨senderId, "sender"⟩, now⟩,
                   ⟨⟨firstDeliveryPersonId, "first delivery person"⟩, now⟩]
                createdAt := now }
            (.ok newPackage,
             { s with packageStorage :=
                 mapInsert s.packageStorage freshUuid newPackage })

/-- getPackageById(packageId): validate the id syntax, then look the
package up. Read-only. -/
def getPackageById (s : LedgerState) (packageId : String) :
    Except String Package :=
  if isValidUUID packageId then
    match mapGet s.packageStorage packageId with
    | some p => .ok p
    | none => .error "Package not found."
  else .error "Invalid package ID."

/-- updatePackage(packageId, newPackageHolderId): validate both ids,
resolve the new holder, resolve the package, then set the status to
"delivered" when the pre-update currentPackageHolder uuid equals the
recipient uuid and to "in transit" otherwise, append a history entry for
the resolved new holder at ic.time(), replace the current holder, store
and return the updated record. -/
def updatePackage (s : LedgerState) (now : Nat)
    (packageId newPackageHolderId : String) :
    Except String Package × LedgerState :=
  if ¬ (isValidUUID packageId && isValidUUID newPackageHolderId) then
    (.error "Invalid package ID or package holder ID.", s)
  else
    match getPackageHolderById s newPackageHolderId with
    | .error _ =>
        (.error ("Could not update package with the new holder id=" ++
          newPackageHolderId ++ ". Package holder not found!"), s)
    | .ok newHolder =>
      match getPackageById s packageId with
      | .error _ =>
          (.error ("Could not update package with the given id=" ++ packageId ++
            ". Package not found!"), s)
      | .ok existing =>
          let updatedPackage : Package :=
            { existing with
                status :=
                  if existing.currentPackageHolder.uuid == existing.recipient.uuid
                  then "delivered" else "in transit"
                currentPackageHolder := newHolder
                deliveryHistory :=
                  existing.deliveryHistory ++ [⟨newHolder, now⟩] }
          (.ok updatedPackage,
           { s with packageStorage :=
               mapInsert s.packageStorage packageId updatedPackage })

/-- True exactly on Ok results. -/
def isOkP {α : Type} (r : Except String α) : Bool :=
  match r with
  | .ok _ => true
  | .error _ => false

/-- A throwaway package value used as the default of pkgOf. -/
def dPkg : Package :=
  { id := "", status := "", sender := ⟨"", ""⟩, recipient := ⟨"", ""⟩,
    currentPackageHolder := ⟨"", ""⟩, deliveryHistory := [], createdAt := 0 }

/-- The package carried by an Ok result (default value on errors). -/
def pkgOf (r : Except String Package) : Package :=
  match r with
  | .ok p => p
  | .error _ => dPkg

/-- States reachable from the empty ledger by runs of the three mutating
operations, with arbitrary fresh uuids, clock values and arguments. -/
inductive Reachable : LedgerState → Prop where
  | empty : Reachable ⟨[], []⟩
  | stepCreateHolder (s : LedgerState) (u name : String) :
      Reachable s → Reachable (createPackageHolder s u name).2
  | stepCreatePackage (s : LedgerState) (fid : String) (now : Nat)
      (a b c : String) :
      Reachable s → Reachable (createPackage s fid now a b c).2
  | stepUpdate (s : LedgerState) (now : Nat) (pid nid : String) :
      Reachable s → Reachable (updatePackage s now pid nid).2

/-! Concrete registry and ledger runs used by witnesses and
counterexamples. Holder uuids are valid version-4 identifiers. -/

/-- Uuid of holder Alice. -/
def uuidA : String := "aaaaaaaa-aaaa-4aaa-8aaa-aaaaaaaaaaaa"

/-- Uuid of holder Bob. -/
def uuidB : String := "bbbbbbbb-bbbb-4bbb-8bbb-bbbbbbbbbbbb"

/-- Uuid of holder Carol. -/
def uuidC : String := "cccccccc-cccc-4ccc-8ccc-cccccccccccc"

/-- Uuid of holder Dave. -/
def uuidD : String := "dddddddd-dddd-4ddd-8ddd-dddddddddddd"

/-- Uuid of the first concrete package. -/
def uuidP1 : String := "eeeeeeee-eeee-4eee-8eee-eeeeeeeeeeee"

/-- Uuid of the second concrete package. -/
def uuidP2 : String := "ffffffff-ffff-4fff-8fff-ffffffffffff"

/-- A syntactically valid uuid that is never registered. -/
def uuidN : String := "99999999-9999-4999-8999-999999999999"

/-- The empty ledger. -/
def st0 : LedgerState := ⟨[], []⟩

/-- After registering Alice. -/
def st1 : LedgerState := (createPackageHolder st0 uuidA "Alice").2

/-- After registering Bob. -/
def st2 : LedgerState := (createPackageHolder st1 uuidB "Bob").2

/-- After registering Carol. -/
def st3 : LedgerState := (createPackageHolder st2 uuidC "Carol").2

/-- After registering Dave. -/
def st4 : LedgerState := (createPackageHolder st3 uuidD "Dave").2

/-- After creating a package with sender Alice, recipient Bob and first
delivery person Carol. -/
def stX : LedgerState := (createPackage st4 uuidP1 100 uuidA uuidB uuidC).2

/-- After creating a package whose first delivery person is the
recipient Bob himself. -/
def stY : LedgerState := (createPackage st4 uuidP2 100 uuidA uuidB uuidB).2

/-- After advancing that package once, to Carol: the pre-update current
holder was the recipient, so the stored status becomes "delivered". -/
def stY2 : LedgerState := (updatePackage stY 200 uuidP2 uuidC).2

/-- After advancing the Alice-to-Bob-via-Carol package to Dave. -/
def stZ : LedgerState := (updatePackage stX 200 uuidP1 uuidD).2

/-! Counterexamples and the code-bug evaluation, all at the concrete
runs above. -/

/-- C1: the claim fails on the code. In the state stX the stored package
has recipient Bob and current holder Carol; the first advance whose new
holder is the recipient Bob succeeds but yields status "in transit", not
"delivered" — the code compares the pre-update current holder, not the
incoming new holder, against the recipient. -/
theorem C1_counterexample :
    (pkgOf (getPackageById stX uuidP1)).recipient.uuid = uuidB ∧
    (pkgOf (getPackageById stX uuidP1)).status = "processing" ∧
    isOkP (updatePackage stX 200 uuidP1 uuidB).1 = true ∧
    (pkgOf (updatePackage stX 200 uuidP1 uuidB).1).status = "in transit" := by
  decide

/-- C2: the claim fails on the code. In the state stY2 the stored package
has status "delivered", yet a further updatePackage call on it succeeds
and grows the stored delivery history from 3 to 4 entries — there is no
delivered guard and the record does change. -/
theorem C2_counterexample :
    (pkgOf (getPackageById stY2 uuidP2)).status = "delivered" ∧
    (pkgOf (getPackageById stY2 uuidP2)).deliveryHistory.length = 3 ∧
    isOkP (updatePackage stY2 300 uuidP2 uuidD).1 = true ∧
    (pkgOf (getPackageById (updatePackage stY2 300 uuidP2 uuidD).2 uuidP2)).deliveryHistory.length = 4 := by
  decide

/-- C3: the claim fails on the code. In the state stZ the stored package
already lists Dave in its delivery history, yet a second advance to Dave
succeeds — updatePackage never consults the delivery history. -/
theorem C3_counterexample :
    (pkgOf (getPackageById stZ uuidP1)).deliveryHistory.any
      (fun e => e.packageHolder.uuid == uuidD) = true ∧
    isOkP (updatePackage stZ 300 uuidP1 uuidD).1 = true := by
  decide

/-- C4: evaluation of the code at the failing input. Alice is registered
under uuidA with name "Alice", yet the package created with her as the
sender embeds the sender snapshot with the hardcoded name "sender" — the
resolved holder records are discarded, so the embedded snapshots are not
copies of the registered Holder records. -/
theorem C4_code_bug :
    mapGet st4.packageHolderStorage uuidA = some ⟨uuidA, "Alice"⟩ ∧
    isOkP (createPackage st4 uuidP1 100 uuidA uuidB uuidC).1 = true ∧
    (pkgOf (createPackage st4 uuidP1 100 uuidA uuidB uuidC).1).sender.name = "sender" ∧
    "sender" ≠ "Alice" := by
  decide

/-- C5: the claim fails on the code. The stored package in stY2 has
status "delivered", and a further successful advance moves it back to
"in transit" — the status does go backward. -/
theorem C5_counterexample :
    (pkgOf (getPackageById stY2 uuidP2)).status = "delivered" ∧
    isOkP (updatePackage stY2 300 uuidP2 uuidD).1 = true ∧
    (pkgOf (getPackageById (updatePackage stY2 300 uuidP2 uuidD).2 uuidP2)).status = "in transit" := by
  decide

/-- C6: the claim fails on the code. Registering the whitespace-only
name "   " on the empty ledger succeeds and stores a holder — the code
only rejects the falsy empty string, not whitespace-only names. -/
theorem C6_counterexample :
    (createPackageHolder st0 uuidA "   ").1 = .ok ⟨uuidA, "   "⟩ ∧
    mapGet (createPackageHolder st0 uuidA "   ").2.packageHolderStorage uuidA =
      some ⟨uuidA, "   "⟩ := by
  decide

/-! General lemmas about the operations, shared by the claim theorems. -/

/-- The empty string is not a valid uuid. -/
theorem isValidUUID_empty_false : isValidUUID "" = false := by decide

/-- A successful holder lookup means the uuid is valid and the holder is
stored under it. -/
theorem getPackageHolderById_ok {s : LedgerState} {uuid : String}
    {h : PackageHolder} (hh : getPackageHolderById s uuid = .ok h) :
    isValidUUID uuid = true ∧ mapGet s.packageHolderStorage uuid = some h := by
  by_cases hv : isValidUUID uuid
  · refine ⟨hv, ?_⟩
    unfold getPackageHolderById at hh
    rw [if_pos hv] at hh
    cases hg : mapGet s.packageHolderStorage uuid with
    | some x =>
        rw [hg] at hh
        injection hh with h1
        rw [h1]
    | none =>
        rw [hg] at hh
        exact Except.noConfusion hh
  · unfold getPackageHolderById at hh
    rw [if_neg hv] at hh
    exact Except.noConfusion hh

/-- A successful package lookup means the id is valid and the package is
stored under it. -/
theorem getPackageById_ok {s : LedgerState} {pid : String} {q : Package}
    (hq : getPackageById s pid = .ok q) :
    isValidUUID pid = true ∧ mapGet s.packageStorage pid = some q := by
  by_cases hv : isValidUUID pid
  · refine ⟨hv, ?_⟩
    unfold getPackageById at hq
    rw [if_pos hv] at hq
    cases hg : mapGet s.packageStorage pid with
    | some x =>
        rw [hg] at hq
        injection hq with h1
        rw [h1]
    | none =>
        rw [hg] at hq
        exact Except.noConfusion hq
  · unfold getPackageById at hq
    rw [if_neg hv] at hq
    exact Except.noConfusion hq

/-- Looking up the key just inserted yields the inserted value. -/
theorem mapGet_mapInsert_self {α : Type} (m : List (String × α)) (k : String)
    (v : α) : mapGet (mapInsert m k v) k = some v := by
  induction m with
  | nil => simp [mapGet, mapInsert]
  | cons hd tl ih =>
      obtain ⟨k1, v1⟩ := hd
      by_cases h : k1 = k
      · simp [mapGet, mapInsert, h]
      · simp [mapGet, mapInsert, h, ih]

/-- Inserting under one key leaves lookups of other keys unchanged. -/
theorem mapGet_mapInsert_ne {α : Type} (m : List (String × α)) (k k2 : String)
    (v : α) (hne : k2 ≠ k) : mapGet (mapInsert m k v) k2 = mapGet m k2 := by
  have h2 : ¬ k = k2 := fun hh => hne hh.symm
  induction m with
  | nil => simp [mapGet, mapInsert, h2]
  | cons hd tl ih =>
      obtain ⟨k1, v1⟩ := hd
      by_cases h : k1 = k
      · have h3 : ¬ k1 = k2 := fun hh => h2 (h ▸ hh)
        simp only [mapInsert, if_pos h, mapGet]
        rw [if_neg h2, if_neg h3]
      · simp only [mapInsert, if_neg h, mapGet]
        rw [ih]

/-- createPackageHolder never touches the package store. -/
theorem createPackageHolder_packageStorage (s : LedgerState) (u name : String) :
    ((createPackageHolder s u name).2).packageStorage = s.packageStorage := by
  unfold createPackageHolder
  split
  · rfl
  · split
    · rfl
    · rfl

/-- The package record that createPackage builds on success (the local
newPackage object of the source). -/
def newPackageOf (fid : String) (now : Nat) (a b c : String) : Package :=
  { id := fid
    status := "processing"
    sender := ⟨a, "sender"⟩
    recipient := ⟨b, "recipient"⟩
    currentPackageHolder := ⟨c, "first delivery person"⟩
    deliveryHistory :=
      [⟨⟨a, "sender"⟩, now⟩, ⟨⟨c, "first delivery person"⟩, now⟩]
    createdAt := now }

/-- The package record that updatePackage builds on success (the local
updatedPackage object of the source): status from the pre-update current
holder, new current holder, one appended history entry. -/
def updatedPackageOf (q : Package) (nh : PackageHolder) (now : Nat) : Package :=
  { q with
      status :=
        if q.currentPackageHolder.uuid == q.recipient.uuid
        then "delivered" else "in transit"
      currentPackageHolder := nh
      deliveryHistory := q.deliveryHistory ++ [⟨nh, now⟩] }

/-- When both lookups succeed, updatePackage succeeds, returning the
updated record and storing it under the package id. -/
theorem updatePackage_eq {s : LedgerState} {now : Nat} {pid nid : String}
    {nh : PackageHolder} {q : Package}
    (hh : getPackageHolderById s nid = .ok nh)
    (hq : getPackageById s pid = .ok q) :
    updatePackage s now pid nid =
      (.ok (updatedPackageOf q nh now),
       { s with packageStorage :=
           mapInsert s.packageStorage pid (updatedPackageOf q nh now) }) := by
  obtain ⟨hv2, -⟩ := getPackageHolderById_ok hh
  obtain ⟨hv1, -⟩ := getPackageById_ok hq
  unfold updatePackage
  rw [if_neg (by rw [hv1, hv2]; exact not_not_intro rfl)]
  rw [hh, hq]
  rfl

/-- When all three holder lookups succeed, createPackage succeeds,
returning the new record and storing it under the fresh id. -/
theorem createPackage_eq {s : LedgerState} {fid : String} {now : Nat}
    {a b c : String} {ha hb hc : PackageHolder}
    (hA : getPackageHolderById s a = .ok ha)
    (hB : getPackageHolderById s b = .ok hb)
    (hC : getPackageHolderById s c = .ok hc) :
    createPackage s fid now a b c =
      (.ok (newPackageOf fid now a b c),
       { s with packageStorage :=
           mapInsert s.packageStorage fid (newPackageOf fid now a b c) }) := by
  obtain ⟨hva, -⟩ := getPackageHolderById_ok hA
  obtain ⟨hvb, -⟩ := getPackageHolderById_ok hB
  obtain ⟨hvc, -⟩ := getPackageHolderById_ok hC
  have hea : a ≠ "" := fun h => by rw [h, isValidUUID_empty_false] at hva; cases hva
  have heb : b ≠ "" := fun h => by rw [h, isValidUUID_empty_false] at hvb; cases hvb
  have hec : c ≠ "" := fun h => by rw [h, isValidUUID_empty_false] at hvc; cases hvc
  unfold createPackage
  rw [if_neg (by simp [hea, heb, hec])]
  rw [if_neg (by rw [hva, hvb, hvc]; exact not_not_intro rfl)]
  rw [hA, hB, hC]
  rfl

/-- A successful createPackage call returns exactly the new record and
stores it under the fresh id. -/
theorem createPackage_ok {s : LedgerState} {fid : String} {now : Nat}
    {a b c : String} {p : Package} {s2 : LedgerState}
    (h : createPackage s fid now a b c = (.ok p, s2)) :
    p = newPackageOf fid now a b c ∧
    s2 = { s with packageStorage := mapInsert s.packageStorage fid p } := by
  unfold createPackage at h
  split at h
  · simp at h
  · split at h
    · simp at h
    · split at h
      · simp at h
      · split at h
        · simp at h
        · split at h
          · simp at h
          · rw [Prod.mk.injEq] at h
            obtain ⟨h1, h2⟩ := h
            injection h1 with h1
            constructor
            · rw [← h1]; rfl
            · rw [← h2, ← h1]

/-- A successful updatePackage call: both ids are valid, a package q was
stored under the package id, and the result is the updated record of q,
stored back under the same key. -/
theorem updatePackage_ok {s : LedgerState} {now : Nat} {pid nid : String}
    {p : Package} {s2 : LedgerState}
    (h : updatePackage s now pid nid = (.ok p, s2)) :
    isValidUUID pid = true ∧
    ∃ nh q, getPackageHolderById s nid = .ok nh ∧
      mapGet s.packageStorage pid = some q ∧
      p = updatedPackageOf q nh now ∧
      s2 = { s with packageStorage := mapInsert s.packageStorage pid p } := by
  unfold updatePackage at h
  split at h
  · simp at h
  · split at h
    · simp at h
    · next newHolder hh =>
      split at h
      · simp at h
      · next existing hq =>
        rw [Prod.mk.injEq] at h
        obtain ⟨h1, h2⟩ := h
        injection h1 with h1
        obtain ⟨hv, hget⟩ := getPackageById_ok hq
        refine ⟨hv, newHolder, existing, hh, hget, ?_, ?_⟩
        · rw [← h1]; rfl
        · rw [← h2, ← h1]

/-- createPackage either leaves the state alone (failure) or inserts a
package whose id field is the fresh id. -/
theorem createPackage_state (s : LedgerState) (fid : String) (now : Nat)
    (a b c : String) :
    (createPackage s fid now a b c).2 = s ∨
    ∃ np : Package, np.id = fid ∧
      (createPackage s fid now a b c).2 =
        { s with packageStorage := mapInsert s.packageStorage fid np } := by
  unfold createPackage
  split
  · exact Or.inl rfl
  · split
    · exact Or.inl rfl
    · split
      · exact Or.inl rfl
      · split
        · exact Or.inl rfl
        · split
          · exact Or.inl rfl
          · exact Or.inr ⟨_, rfl, rfl⟩

/-- updatePackage either leaves the state alone (failure) or replaces a
stored package by one with the same id field. -/
theorem updatePackage_state (s : LedgerState) (now : Nat) (pid nid : String) :
    (updatePackage s now pid nid).2 = s ∨
    ∃ q np : Package, mapGet s.packageStorage pid = some q ∧ np.id = q.id ∧
      (updatePackage s now pid nid).2 =
        { s with packageStorage := mapInsert s.packageStorage pid np } := by
  unfold updatePackage
  split
  · exact Or.inl rfl
  · split
    · exact Or.inl rfl
    · next newHolder hh =>
      split
      · exact Or.inl rfl
      · next existing hq =>
        obtain ⟨-, hget⟩ := getPackageById_ok hq
        exact Or.inr
          ⟨existing, updatedPackageOf existing newHolder now, hget, rfl, rfl⟩

/-- In every reachable state, each stored package's id field equals its
storage key. -/
theorem reachable_key_id {s : LedgerState} (hs : Reachable s) :
    ∀ k p, mapGet s.packageStorage k = some p → p.id = k := by
  induction hs with
  | empty =>
      intro k p h
      exact Option.noConfusion h
  | stepCreateHolder s u name hs ih =>
      intro k p h
      rw [createPackageHolder_packageStorage] at h
      exact ih k p h
  | stepCreatePackage s fid now a b c hs ih =>
      intro k p h
      rcases createPackage_state s fid now a b c with heq | ⟨np, hid, heq⟩
      · rw [heq] at h
        exact ih k p h
      · rw [heq] at h
        by_cases hk : k = fid
        · subst hk
          rw [mapGet_mapInsert_self] at h
          injection h with h1
          rw [← h1]
          exact hid
        · rw [mapGet_mapInsert_ne _ _ _ _ hk] at h
          exact ih k p h
  | stepUpdate s now pid nid hs ih =>
      intro k p h
      rcases updatePackage_state s now pid nid with heq | ⟨q, np, hget, hid, heq⟩
      · rw [heq] at h
        exact ih k p h
      · rw [heq] at h
        by_cases hk : k = pid
        · subst hk
          rw [mapGet_mapInsert_self] at h
          injection h with h1
          rw [← h1, hid]
          exact ih k q hget
        · rw [mapGet_mapInsert_ne _ _ _ _ hk] at h
          exact ih k p h

/-- A pair whose first component is known is the pair of its components. -/
theorem fst_ok_pair {x : Except String Package × LedgerState} {p : Package}
    (h : x.1 = .ok p) : x = (.ok p, x.2) := by
  rw [← h]

/-! Claim theorems. -/

/-- C1 (amended): for every successful updatePackage call, the resulting
status is "delivered" exactly when the PRE-UPDATE currentPackageHolder
uuid of the stored package equals its recipient uuid, and "in transit"
otherwise; the incoming newHolderId plays no role in the decision. -/
theorem C1_theorem (s : LedgerState) (now : Nat) (pid nid : String)
    (p q : Package)
    (hq : getPackageById s pid = .ok q)
    (hok : (updatePackage s now pid nid).1 = .ok p) :
    p.status = if q.currentPackageHolder.uuid == q.recipient.uuid
               then "delivered" else "in transit" := by
  obtain ⟨-, nh, q2, -, hget2, hp, -⟩ := updatePackage_ok (fst_ok_pair hok)
  obtain ⟨-, hget⟩ := getPackageById_ok hq
  rw [hget] at hget2
  injection hget2 with hqq
  rw [hp, ← hqq]
  rfl

/-- C1 witness: at the concrete state stX the advance to Dave succeeds
and its status follows the pre-update current-holder rule. -/
theorem C1_witness :
    (pkgOf (updatePackage stX 200 uuidP1 uuidD).1).status =
      if (pkgOf (getPackageById stX uuidP1)).currentPackageHolder.uuid ==
         (pkgOf (getPackageById stX uuidP1)).recipient.uuid
      then "delivered" else "in transit" :=
  C1_theorem stX 200 uuidP1 uuidD
    (pkgOf (updatePackage stX 200 uuidP1 uuidD).1)
    (pkgOf (getPackageById stX uuidP1))
    (by decide) (by decide)

/-- C2 (amended): updatePackage has no delivered guard. A call on a
stored package whose status is "delivered" succeeds whenever the new
holder resolves and the package resolves, and it changes the stored
record: the delivery history grows by one entry. -/
theorem C2_theorem (s : LedgerState) (now : Nat) (pid nid : String)
    (nh : PackageHolder) (q : Package)
    (hh : getPackageHolderById s nid = .ok nh)
    (hq : getPackageById s pid = .ok q)
    (hdel : q.status = "delivered") :
    isOkP (updatePackage s now pid nid).1 = true ∧
    (pkgOf (updatePackage s now pid nid).1).deliveryHistory.length =
      q.deliveryHistory.length + 1 := by
  rw [updatePackage_eq hh hq]
  constructor
  · rfl
  · simp [isOkP, pkgOf, updatedPackageOf]

/-- C2 witness: at the concrete delivered package in stY2 the advance to
Dave succeeds and appends to the history. -/
theorem C2_witness :
    isOkP (updatePackage stY2 300 uuidP2 uuidD).1 = true ∧
    (pkgOf (updatePackage stY2 300 uuidP2 uuidD).1).deliveryHistory.length =
      (pkgOf (getPackageById stY2 uuidP2)).deliveryHistory.length + 1 :=
  C2_theorem stY2 300 uuidP2 uuidD ⟨uuidD, "Dave"⟩
    (pkgOf (getPackageById stY2 uuidP2))
    (by decide) (by decide) (by decide)

/-- C3 (amended): updatePackage never consults the delivery history.
Even when the resolved new holder already appears in the stored package's
delivery history, the call succeeds (no ConflictError). -/
theorem C3_theorem (s : LedgerState) (now : Nat) (pid nid : String)
    (nh : PackageHolder) (q : Package)
    (hh : getPackageHolderById s nid = .ok nh)
    (hq : getPackageById s pid = .ok q)
    (hmem : q.deliveryHistory.any
      (fun e => e.packageHolder.uuid == nh.uuid) = true) :
    isOkP (updatePackage s now pid nid).1 = true := by
  rw [updatePackage_eq hh hq]
  rfl

/-- C3 witness: at the concrete state stZ, whose package already lists
Dave in its history, the second advance to Dave succeeds. -/
theorem C3_witness : isOkP (updatePackage stZ 300 uuidP1 uuidD).1 = true :=
  C3_theorem stZ 300 uuidP1 uuidD ⟨uuidD, "Dave"⟩
    (pkgOf (getPackageById stZ uuidP1))
    (by decide) (by decide) (by decide)

/-- C5 (amended): no successful advance ever sets the status back to
"processing" — updatePackage always produces "in transit" or
"delivered". (The delivered state is not terminal, as C5's
counterexample shows.) -/
theorem C5_theorem (s : LedgerState) (now : Nat) (pid nid : String)
    (p : Package)
    (hok : (updatePackage s now pid nid).1 = .ok p) :
    p.status = "in transit" ∨ p.status = "delivered" := by
  obtain ⟨-, nh, q, -, -, hp, -⟩ := updatePackage_ok (fst_ok_pair hok)
  rw [hp]
  unfold updatedPackageOf
  by_cases hc : (q.currentPackageHolder.uuid == q.recipient.uuid) = true
  · right
    simp [hc]
  · left
    simp [hc]

/-- C5 witness: the concrete advance of the stX package to Dave yields
one of the two non-initial statuses. -/
theorem C5_witness :
    (pkgOf (updatePackage stX 200 uuidP1 uuidD).1).status = "in transit" ∨
    (pkgOf (updatePackage stX 200 uuidP1 uuidD).1).status = "delivered" :=
  C5_theorem stX 200 uuidP1 uuidD
    (pkgOf (updatePackage stX 200 uuidP1 uuidD).1) (by decide)

/-- C6 (amended): createPackageHolder rejects exactly the empty name
with the validation error; any non-empty name — including whitespace-only
names such as "   " — passes the name check and (absent a duplicate) is
accepted and stored. -/
theorem C6_theorem (s : LedgerState) (u name : String)
    (hdup : (mapValues s.packageHolderStorage).any
      (fun h => h.name == name) = false) :
    ((createPackageHolder s u name).1 = .error "Name is required." ↔
      name = "") ∧
    (name ≠ "" →
      (createPackageHolder s u name).1 = .ok ⟨u, name⟩ ∧
      mapGet ((createPackageHolder s u name).2).packageHolderStorage u =
        some ⟨u, name⟩) := by
  have hc : ¬ ((mapValues s.packageHolderStorage).any
      (fun h => h.name == name) = true) := by
    rw [hdup]
    exact Bool.false_ne_true
  constructor
  · constructor
    · intro h
      by_cases he : name = ""
      · exact he
      · unfold createPackageHolder at h
        rw [if_neg he, if_neg hc] at h
        exact absurd h (by simp)
    · intro he
      unfold createPackageHolder
      rw [if_pos he]
  · intro he
    unfold createPackageHolder
    rw [if_neg he, if_neg hc]
    exact ⟨rfl, mapGet_mapInsert_self _ _ _⟩

/-- C6 witness: on the empty ledger, the whitespace-only name is not the
empty name, so registration succeeds and stores the holder; the
validation error happens exactly for the empty name. -/
theorem C6_witness :
    ((createPackageHolder st0 uuidA "   ").1 = .error "Name is required." ↔
      "   " = "") ∧
    ("   " ≠ "" →
      (createPackageHolder st0 uuidA "   ").1 = .ok ⟨uuidA, "   "⟩ ∧
      mapGet ((createPackageHolder st0 uuidA "   ").2).packageHolderStorage uuidA =
        some ⟨uuidA, "   "⟩) :=
  C6_theorem st0 uuidA "   " (by decide)

/-- C7 (confirmed): every successful createPackage returns a package
with status "processing", a two-entry delivery history holding the
sender snapshot then the first-holder snapshot, both carrying the single
captured timestamp that is also createdAt, and whose current holder is
the first delivery person. -/
theorem C7_theorem (s : LedgerState) (fid : String) (now : Nat)
    (a b c : String) (p : Package)
    (hok : (createPackage s fid now a b c).1 = .ok p) :
    p.status = "processing" ∧
    p.deliveryHistory =
      [⟨p.sender, p.createdAt⟩, ⟨p.currentPackageHolder, p.createdAt⟩] ∧
    p.createdAt = now ∧
    p.currentPackageHolder.uuid = c ∧
    p.sender.uuid = a := by
  obtain ⟨hp, -⟩ := createPackage_ok (fst_ok_pair hok)
  rw [hp]
  exact ⟨rfl, rfl, rfl, rfl, rfl⟩

/-- C7 witness: the concrete creation in st4 satisfies all five
conclusions. -/
theorem C7_witness :
    (pkgOf (createPackage st4 uuidP1 100 uuidA uuidB uuidC).1).status =
      "processing" ∧
    (pkgOf (createPackage st4 uuidP1 100 uuidA uuidB uuidC).1).deliveryHistory =
      [⟨(pkgOf (createPackage st4 uuidP1 100 uuidA uuidB uuidC).1).sender,
        (pkgOf (createPackage st4 uuidP1 100 uuidA uuidB uuidC).1).createdAt⟩,
       ⟨(pkgOf (createPackage st4 uuidP1 100 uuidA uuidB uuidC).1).currentPackageHolder,
        (pkgOf (createPackage st4 uuidP1 100 uuidA uuidB uuidC).1).createdAt⟩] ∧
    (pkgOf (createPackage st4 uuidP1 100 uuidA uuidB uuidC).1).createdAt = 100 ∧
    (pkgOf (createPackage st4 uuidP1 100 uuidA uuidB uuidC).1).currentPackageHolder.uuid =
      uuidC ∧
    (pkgOf (createPackage st4 uuidP1 100 uuidA uuidB uuidC).1).sender.uuid = uuidA :=
  C7_theorem st4 uuidP1 100 uuidA uuidB uuidC
    (pkgOf (createPackage st4 uuidP1 100 uuidA uuidB uuidC).1) (by decide)

/-- C8 (confirmed): updatePackage with a syntactically valid but
unregistered new-holder id fails with the holder-not-found error and
returns the ledger state unchanged, so the stored package record is
untouched. -/
theorem C8_theorem (s : LedgerState) (now : Nat) (pid nid : String)
    (hp : isValidUUID pid = true) (hn : isValidUUID nid = true)
    (hnone : mapGet s.packageHolderStorage nid = none) :
    (updatePackage s now pid nid).1 =
      .error ("Could not update package with the new holder id=" ++ nid ++
        ". Package holder not found!") ∧
    (updatePackage s now pid nid).2 = s := by
  have hh : getPackageHolderById s nid = .error "Package holder not found." := by
    unfold getPackageHolderById
    rw [if_pos hn, hnone]
  unfold updatePackage
  rw [if_neg (by rw [hp, hn]; exact not_not_intro rfl), hh]
  exact ⟨rfl, rfl⟩

/-- C8 witness: at stX, the never-registered valid uuid makes the
advance fail and leaves the state identical. -/
theorem C8_witness :
    (updatePackage stX 300 uuidP1 uuidN).1 =
      .error ("Could not update package with the new holder id=" ++ uuidN ++
        ". Package holder not found!") ∧
    (updatePackage stX 300 uuidP1 uuidN).2 = stX :=
  C8_theorem stX 300 uuidP1 uuidN (by decide) (by decide) (by decide)

/-- C9 (confirmed): round-trip. In any reachable state, a successful
createPackage (with a valid fresh id, as uuidv4 guarantees) or
updatePackage call stores exactly the record it returns, so an
immediately following getPackageById on the returned id succeeds with a
record equal to the returned value. -/
theorem C9_roundtrip (s : LedgerState) (fid : String) (now : Nat)
    (a b c pid nid : String)
    (hre : Reachable s) (hfid : isValidUUID fid = true) :
    (∀ p s2, createPackage s fid now a b c = (.ok p, s2) →
       getPackageById s2 p.id = .ok p) ∧
    (∀ p s2, updatePackage s now pid nid = (.ok p, s2) →
       getPackageById s2 p.id = .ok p) := by
  constructor
  · intro p s2 h
    obtain ⟨hp, hs2⟩ := createPackage_ok h
    have hid : p.id = fid := by rw [hp]; rfl
    rw [hs2]
    unfold getPackageById
    rw [hid, if_pos hfid, mapGet_mapInsert_self]
  · intro p s2 h
    obtain ⟨hvp, nh, q, hh, hget, hp, hs2⟩ := updatePackage_ok h
    have hqid : q.id = pid := reachable_key_id hre pid q hget
    have hid : p.id = pid := by rw [hp]; exact hqid
    rw [hs2]
    unfold getPackageById
    rw [hid, if_pos hvp, mapGet_mapInsert_self]

/-- C9 witness: at the reachable state stY, the concrete create and the
concrete advance each round-trip through getPackageById. -/
theorem C9_witness :
    getPackageById (createPackage stY uuidP1 200 uuidA uuidB uuidC).2
        (pkgOf (createPackage stY uuidP1 200 uuidA uuidB uuidC).1).id =
      .ok (pkgOf (createPackage stY uuidP1 200 uuidA uuidB uuidC).1) ∧
    getPackageById (updatePackage stY 200 uuidP2 uuidC).2
        (pkgOf (updatePackage stY 200 uuidP2 uuidC).1).id =
      .ok (pkgOf (updatePackage stY 200 uuidP2 uuidC).1) := by
  have hre : Reachable stY :=
    Reachable.stepCreatePackage st4 uuidP2 100 uuidA uuidB uuidB
      (Reachable.stepCreateHolder st3 uuidD "Dave"
        (Reachable.stepCreateHolder st2 uuidC "Carol"
          (Reachable.stepCreateHolder st1 uuidB "Bob"
            (Reachable.stepCreateHolder st0 uuidA "Alice" Reachable.empty))))
  have h := C9_roundtrip stY uuidP1 200 uuidA uuidB uuidC uuidP2 uuidC hre
    (by decide)
  exact ⟨h.1 (pkgOf (createPackage stY uuidP1 200 uuidA uuidB uuidC).1)
           ((createPackage stY uuidP1 200 uuidA uuidB uuidC).2) (by decide),
         h.2 (pkgOf (updatePackage stY 200 uuidP2 uuidC).1)
           ((updatePackage stY 200 uuidP2 uuidC).2) (by decide)⟩

/-- C10 (confirmed): createPackage imposes no distinctness between the
three holder ids: with the sender and a holder registered, using that
same holder as both recipient and first delivery person succeeds, and
the created package's status is "processing", not "delivered". -/
theorem C10_theorem (s : LedgerState) (fid : String) (now : Nat)
    (a b : String) (ha hb : PackageHolder)
    (hA : getPackageHolderById s a = .ok ha)
    (hB : getPackageHolderById s b = .ok hb) :
    isOkP (createPackage s fid now a b b).1 = true ∧
    (pkgOf (createPackage s fid now a b b).1).status = "processing" := by
  rw [createPackage_eq hA hB hB]
  exact ⟨rfl, rfl⟩

/-- C10 witness: creating a package whose recipient and first delivery
person are both Bob succeeds with status "processing". -/
theorem C10_witness :
    isOkP (createPackage st4 uuidP1 100 uuidA uuidB uuidB).1 = true ∧
    (pkgOf (createPackage st4 uuidP1 100 uuidA uuidB uuidB).1).status =
      "processing" :=
  C10_theorem st4 uuidP1 100 uuidA uuidB ⟨uuidA, "Alice"⟩ ⟨uuidB, "Bob"⟩
    (by decide) (by decide)
